import Mathlib

/-!
Verification of the satflow nowcasting models (src/satflow/models/conv_lstm.py and
src/satflow/models/nowcasting_gan.py) against their natural-language specification.

The tensor runtime is embedded shallowly: a tensor is a shape (list of dimension
sizes) together with a total valuation of index lists, with the scalar type kept
generic (instantiated at ℚ where concrete evaluation is needed and at ℝ where the
sigmoid range property is at stake).  Operations of the external tensor library
that the claims depend on (`torch.cat`, `torch.mean`, `torch.stack`, `permute`,
`moveaxis`, broadcasting `mse_loss`, `Conv3d`) are given their documented torch
semantics; failures of the runtime are represented by `Except` with the spec's
`InvalidArgument` taxonomy.
-/

namespace Satflow

/-- Errors surfaced by the embedded tensor runtime.  The spec's error taxonomy
calls structurally inconsistent shapes `InvalidArgument`. -/
inductive TensorError where
  | invalidArgument
deriving DecidableEq, Repr

/-- A tensor: a shape (list of dimension sizes, outermost first) and a total
valuation of index lists.  Indices outside the shape are irrelevant junk. -/
structure Tensor (α : Type) where
  shape : List ℕ
  data : List ℕ → α

/-- Element-wise map, used for the final `torch.nn.Sigmoid()` application. -/
def Tensor.map {α : Type} (f : α → α) (t : Tensor α) : Tensor α :=
  ⟨t.shape, fun idx => f (t.data idx)⟩

/-- Indexing `x[:, i, :, :]`: select index `i` along dimension 1, dropping
that dimension. -/
def Tensor.index_select1 {α : Type} (t : Tensor α) (i : ℕ) : Tensor α :=
  ⟨match t.shape with
    | s0 :: _ :: rest => s0 :: rest
    | s => s,
   fun idx =>
    match idx with
    | i0 :: r => t.data (i0 :: i :: r)
    | [] => t.data []⟩

/-- The semantics of `torch.stack(ts, dim=1)`: requires a non-empty list of
same-shaped tensors (torch raises on an empty tensor list) and inserts a new
dimension of size `ts.length` at position 1. -/
def torch_stack1 {α : Type} (ts : List (Tensor α)) : Except TensorError (Tensor α) :=
  match ts with
  | [] => .error .invalidArgument
  | t :: rest =>
    if (∀ u ∈ t :: rest, u.shape = t.shape) then
      match t.shape with
      | s0 :: srest =>
        .ok ⟨s0 :: (t :: rest).length :: srest,
             fun idx =>
              match idx with
              | i0 :: j :: ir => ((t :: rest).getD j t).data (i0 :: ir)
              | _ => t.data idx⟩
      | [] => .error .invalidArgument
    else .error .invalidArgument

/-- The semantics of `.permute(0, 2, 1, 3, 4)` on a 5-D tensor (swap dimensions
1 and 2); torch raises when the rank does not match the permutation length. -/
def Tensor.permute02134 {α : Type} (t : Tensor α) : Except TensorError (Tensor α) :=
  match t.shape with
  | [a, b, c, d, e] =>
    .ok ⟨[a, c, b, d, e],
         fun idx =>
          match idx with
          | [i0, i1, i2, i3, i4] => t.data [i0, i2, i1, i3, i4]
          | _ => t.data idx⟩
  | _ => .error .invalidArgument

/-- The semantics of `torch.moveaxis(t, 2, 1)`: move axis 2 to position 1 (for
adjacent axes, a swap of dimensions 1 and 2); requires rank at least 3. -/
def torch_moveaxis21 {α : Type} (t : Tensor α) : Except TensorError (Tensor α) :=
  match t.shape with
  | s0 :: s1 :: s2 :: rest =>
    .ok ⟨s0 :: s2 :: s1 :: rest,
         fun idx =>
          match idx with
          | i0 :: i1 :: i2 :: ir => t.data (i0 :: i2 :: i1 :: ir)
          | _ => t.data idx⟩
  | _ => .error .invalidArgument

/-- Lookup helper for concatenation: walk the pieces along dimension `dim`,
subtracting each piece's extent until the index falls inside a piece. -/
def catLookup {α : Type} (ts : List (Tensor α)) (dim : ℕ) (idx : List ℕ) (dflt : α) : α :=
  match ts with
  | [] => dflt
  | t :: rest =>
    let d := t.shape.getD dim 0
    let j := idx.getD dim 0
    if j < d then t.data idx
    else catLookup rest dim (idx.set dim (j - d)) dflt

/-- The semantics of `torch.cat(ts, dim)`: a non-empty list of tensors of equal
rank agreeing on every dimension other than `dim`; the result sums the extents
along `dim`.  torch raises on an empty list, rank mismatch (so a 4-D tensor can
never be concatenated with a 5-D one) or extent mismatch. -/
def torch_cat {α : Type} (ts : List (Tensor α)) (dim : ℕ) : Except TensorError (Tensor α) :=
  match ts with
  | [] => .error .invalidArgument
  | t :: rest =>
    if (dim < t.shape.length ∧
        ∀ u ∈ t :: rest, u.shape.length = t.shape.length ∧
          ∀ j ∈ List.range t.shape.length, j = dim ∨ u.shape.getD j 0 = t.shape.getD j 0) then
      .ok ⟨t.shape.set dim (((t :: rest).map fun u => u.shape.getD dim 0).sum),
           fun idx => catLookup (t :: rest) dim idx (t.data idx)⟩
    else .error .invalidArgument

/-- The semantics of `torch.mean(t, dim)` with the default `keepdim=False`: the
dimension `dim` is removed entirely and values are averaged along it. -/
def torch_mean {α : Type} [Field α] (t : Tensor α) (dim : ℕ) : Except TensorError (Tensor α) :=
  let n := t.shape.getD dim 0
  if dim < t.shape.length ∧ 0 < n then
    .ok ⟨t.shape.eraseIdx dim,
         fun idx => (((List.range n).map fun i => t.data (idx.insertIdx dim i)).sum) / (n : α)⟩
  else .error .invalidArgument

/-- Broadcast two dimension sizes in the numpy/torch sense. -/
def broadcastDim (a b : ℕ) : Option ℕ :=
  if a = b then some a else if a = 1 then some b else if b = 1 then some a else none

/-- Broadcast two shapes, aligning trailing dimensions and padding the shorter
shape with leading 1-sized dimensions. -/
def broadcastShapes (s1 s2 : List ℕ) : Option (List ℕ) :=
  let n := max s1.length s2.length
  let p1 := List.replicate (n - s1.length) 1 ++ s1
  let p2 := List.replicate (n - s2.length) 1 ++ s2
  (p1.zip p2).mapM fun pq => broadcastDim pq.1 pq.2

/-- Map an index of the broadcast shape back to an index of an operand of shape
`s`: drop the padded leading coordinates and clamp broadcast (size-1)
dimensions to 0. -/
def bcIndex (s : List ℕ) (idx : List ℕ) : List ℕ :=
  let idx2 := idx.drop (idx.length - s.length)
  (s.zip idx2).map fun di => if di.1 = 1 then 0 else di.2

/-- All valid index lists of a shape, in lexicographic order. -/
def allIndices : List ℕ → List (List ℕ)
  | [] => [[]]
  | d :: ds => ((List.range d).map fun i => (allIndices ds).map fun r => i :: r).flatten

/-- The semantics of `torch.nn.functional.mse_loss` with the default mean
reduction: input and target are mutually broadcast (torch only warns when the
shapes differ) and the squared differences are averaged over the broadcast
shape. -/
def mse_loss {α : Type} [Field α] (input target : Tensor α) : Except TensorError α :=
  match broadcastShapes input.shape target.shape with
  | none => .error .invalidArgument
  | some s =>
    .ok ((((allIndices s).map fun idx =>
      (input.data (bcIndex input.shape idx) - target.data (bcIndex target.shape idx)) ^ 2).sum)
      / ((s.prod : ℕ) : α))

/-- The real sigmoid applied element-wise by `torch.nn.Sigmoid`. -/
noncomputable def sigmoid (x : ℝ) : ℝ := 1 / (1 + Real.exp (-x))

/-- Modelled from the spec: the recurrent `ConvLSTMCell` module
(satflow/models/layers/ConvLSTM.py) is not part of the sources under
verification; the spec (§3) specifies only that a cell consumes an input tensor
and a hidden/cell state pair and produces a new hidden/cell state pair of shape
`[batch, hidden_dim, height, width]`.  A cell is therefore an arbitrary function
of that signature, constrained where needed by `StatePreserving`. -/
def CellFn (α : Type) : Type :=
  Tensor α → Tensor α × Tensor α → Tensor α × Tensor α

/-- Shape contract of a recurrent cell, from the spec's data model: the new
hidden and cell states have the same shape as the incoming hidden state. -/
def StatePreserving {α : Type} (f : CellFn α) : Prop :=
  ∀ (x : Tensor α) (hc : Tensor α × Tensor α),
    ((f x hc).1).shape = hc.1.shape ∧ ((f x hc).2).shape = hc.1.shape

/-- Modelled from the spec: `ConvLSTMCell.init_hidden` (absent module) returns
a zero-initialized hidden/cell state pair of shape
`[batch, hidden_dim, height, width]` (spec §3, §4.1 step 1). -/
def init_hidden {α : Type} [Zero α] (batch_size hidden_dim h w : ℕ) :
    Tensor α × Tensor α :=
  (⟨[batch_size, hidden_dim, h, w], fun _ => 0⟩,
   ⟨[batch_size, hidden_dim, h, w], fun _ => 0⟩)

/-- Configuration errors; the spec's taxonomy calls a construction-time
rejection of an unrecognized identifier `UnsupportedConfiguration` (the code
raises `AssertionError` from the `assert` in `__init__`). -/
inductive ConfigError where
  | unsupportedConfiguration
deriving DecidableEq, Repr

/-- The `loss` constructor argument: either a string identifier or a loss
module (the code tests `isinstance(loss, torch.nn.Module)`). -/
inductive LossArg (α : Type) where
  | str (s : String)
  | module (f : Tensor α → Tensor α → α)

/-- The resolved loss callable.  The built-in alternatives tag the functions
assigned by the source (`F.mse_loss`, `F.nll_loss`, `FocalLoss()` — the latter
two live in the external/unavailable losses module); a supplied module is kept
verbatim. -/
inductive Criterion (α : Type) where
  | F_mse_loss
  | F_nll_loss
  | focalLoss
  | module (f : Tensor α → Tensor α → α)

/-- The loss identifiers accepted by the `assert` in
`EncoderDecoderConvLSTM.__init__`. -/
def recognized_losses : List String :=
  ["mse", "bce", "binary_crossentropy", "crossentropy", "focal"]

/-- Loss resolution logic of `EncoderDecoderConvLSTM.__init__` (conv_lstm.py
lines 30-41): a module is used verbatim; a string must pass the `assert`
(otherwise construction fails) and is then dispatched by the if/elif chain.
The final `raise ValueError` branch of the source is unreachable because the
`assert` list equals the union of the dispatched identifiers. -/
def resolve_loss {α : Type} (loss : LossArg α) : Except ConfigError (Criterion α) :=
  match loss with
  | .module f => .ok (.module f)
  | .str l =>
    if l ∈ recognized_losses then
      if l = "mse" then .ok .F_mse_loss
      else if l ∈ ["bce", "binary_crossentropy", "crossentropy"] then .ok .F_nll_loss
      else if l ∈ ["focal"] then .ok .focalLoss
      else .error .unsupportedConfiguration
    else .error .unsupportedConfiguration

/-- The recurrent encoder-decoder model (conv_lstm.py).  The four recurrent
cells are cell functions (see `CellFn`); the 3-D convolution `decoder_CNN` is
kept as its weight tensor `[out_channels, hidden_dim, 1, 3, 3]` and bias. -/
structure EncoderDecoderConvLSTM (α : Type) where
  hidden_dim : ℕ
  input_channels : ℕ
  out_channels : ℕ
  forecast_steps : ℕ
  lr : ℚ
  make_vis : Bool
  criterion : Criterion α
  encoder_1_convlstm : CellFn α
  encoder_2_convlstm : CellFn α
  decoder_1_convlstm : CellFn α
  decoder_2_convlstm : CellFn α
  decoder_CNN_weight : ℕ → ℕ → ℕ → ℕ → ℕ → α
  decoder_CNN_bias : ℕ → α

/-- Construction of `EncoderDecoderConvLSTM` (conv_lstm.py `__init__`): the
loss argument is resolved first (the `assert` fires before any sub-module is
built, so a rejected identifier means no model is ever constructed and nothing
can fail mid-training); the cell functions and convolution parameters stand for
the externally built sub-modules.  `pretrained` is accepted and ignored, as in
the source. -/
def EncoderDecoderConvLSTM.init {α : Type} (hidden_dim input_channels out_channels forecast_steps : ℕ)
    (lr : ℚ) (make_vis : Bool) (loss : LossArg α) (_pretrained : Bool)
    (enc1 enc2 dec1 dec2 : CellFn α)
    (weight : ℕ → ℕ → ℕ → ℕ → ℕ → α) (bias : ℕ → α) :
    Except ConfigError (EncoderDecoderConvLSTM α) :=
  match resolve_loss loss with
  | .error e => .error e
  | .ok c =>
    .ok ⟨hidden_dim, input_channels, out_channels, forecast_steps, lr, make_vis, c,
         enc1, enc2, dec1, dec2, weight, bias⟩

/-- The semantics of the model's `decoder_CNN`, an
`nn.Conv3d(hidden_dim, out_channels, kernel_size=(1, 3, 3), padding=(0, 1, 1))`:
it requires a 5-D input whose channel dimension equals `hidden_dim` and whose
remaining extents admit at least one output position, and computes the usual
zero-padded cross-correlation. -/
def EncoderDecoderConvLSTM.decoder_CNN {α : Type} [Ring α] (m : EncoderDecoderConvLSTM α)
    (x : Tensor α) : Except TensorError (Tensor α) :=
  match x.shape with
  | [bb, cin, d, hh, ww] =>
    if cin = m.hidden_dim ∧ 1 ≤ d ∧ 1 ≤ hh ∧ 1 ≤ ww then
      .ok ⟨[bb, m.out_channels, d, hh, ww],
           fun idx =>
            match idx with
            | [i, o, dd, p, q] =>
              m.decoder_CNN_bias o +
                Finset.sum (Finset.range m.hidden_dim) fun cc =>
                  Finset.sum (Finset.range 3) fun kh =>
                    Finset.sum (Finset.range 3) fun kw =>
                      m.decoder_CNN_weight o cc 0 kh kw *
                        (if 1 ≤ p + kh ∧ p + kh ≤ hh ∧ 1 ≤ q + kw ∧ q + kw ≤ ww then
                          x.data [i, cc, dd, p + kh - 1, q + kw - 1]
                        else 0)
            | _ => 0⟩
    else .error .invalidArgument
  | _ => .error .invalidArgument

/-- State threaded through the decoding recurrence of `autoencoder`: the
current encoder vector, the two decoder cell states and the collected
predictions. -/
structure DecState (α : Type) where
  encoder_vector : Tensor α
  h_t3 : Tensor α
  c_t3 : Tensor α
  h_t4 : Tensor α
  c_t4 : Tensor α
  outputs : List (Tensor α)

/-- One iteration of the decoding loop of `autoencoder` (conv_lstm.py lines
106-114): decoder cell 1 consumes the encoder vector, decoder cell 2 consumes
its hidden output, the encoder vector becomes decoder cell 2's new hidden state
(closed autoregressive loop) and that state is appended to the outputs. -/
def decoderStep {α : Type} (d1 d2 : CellFn α) (st : DecState α) : DecState α :=
  let p3 := d1 st.encoder_vector (st.h_t3, st.c_t3)
  let p4 := d2 p3.1 (st.h_t4, st.c_t4)
  ⟨p4.1, p3.1, p3.2, p4.1, p4.2, st.outputs ++ [p4.1]⟩

/-- The encoding loop of `autoencoder` (conv_lstm.py lines 94-100): feed frame
`t` into encoder cell 1 and its hidden output into encoder cell 2, threading
both cells' states; no output is collected. -/
def encoderLoop {α : Type} (m : EncoderDecoderConvLSTM α) (x : Tensor α) (seq_len : ℕ)
    (h_t c_t h_t2 c_t2 : Tensor α) :
    Tensor α × Tensor α × Tensor α × Tensor α :=
  (List.range seq_len).foldl
    (fun st t =>
      let p1 := m.encoder_1_convlstm (x.index_select1 t) (st.1, st.2.1)
      let p2 := m.encoder_2_convlstm p1.1 (st.2.2.1, st.2.2.2)
      (p1.1, p1.2, p2.1, p2.2))
    (h_t, c_t, h_t2, c_t2)

/-- The `autoencoder` schedule (conv_lstm.py lines 89-121): encode the input
sequence through the two encoder cells, take encoder cell 2's final hidden
state as the encoder vector, run the closed decoding loop for `future_step`
steps, then `torch.stack(outputs, 1)`, `.permute(0, 2, 1, 3, 4)`, the 3-D
convolution and the element-wise sigmoid `σ`. -/
def EncoderDecoderConvLSTM.autoencoder {α : Type} [Ring α] (σ : α → α)
    (m : EncoderDecoderConvLSTM α) (x : Tensor α) (seq_len future_step : ℕ)
    (h_t c_t h_t2 c_t2 h_t3 c_t3 h_t4 c_t4 : Tensor α) :
    Except TensorError (Tensor α) :=
  let encoder_vector := (encoderLoop m x seq_len h_t c_t h_t2 c_t2).2.2.1
  let dec :=
    (List.range future_step).foldl
      (fun st _ => decoderStep m.decoder_1_convlstm m.decoder_2_convlstm st)
      ⟨encoder_vector, h_t3, c_t3, h_t4, c_t4, []⟩
  (torch_stack1 dec.outputs).bind fun stacked =>
    (stacked.permute02134).bind fun permuted =>
      (m.decoder_CNN permuted).map (Tensor.map σ)

/-- The model's `forward` (conv_lstm.py lines 123-146): read
`(b, seq_len, _, h, w)` from the 5-D input (torch raises on any other rank),
zero-initialize the four hidden/cell state pairs and run `autoencoder`. -/
def EncoderDecoderConvLSTM.forward {α : Type} [Ring α] (σ : α → α)
    (m : EncoderDecoderConvLSTM α) (x : Tensor α) (future_seq : ℕ) :
    Except TensorError (Tensor α) :=
  match x.shape with
  | [b, seq_len, _, h, w] =>
    let p1 := init_hidden (α := α) b m.hidden_dim h w
    let p2 := init_hidden (α := α) b m.hidden_dim h w
    let p3 := init_hidden (α := α) b m.hidden_dim h w
    let p4 := init_hidden (α := α) b m.hidden_dim h w
    m.autoencoder σ x seq_len future_seq p1.1 p1.2 p2.1 p2.2 p3.1 p3.2 p4.1 p4.2
  | _ => .error .invalidArgument

/-- The loss computation of `EncoderDecoderConvLSTM.training_step`
(conv_lstm.py lines 162-168), as a function of the prediction `y_hat` returned
by `forward` and the target `y`: the primary loss is `criterion(y_hat, y)`,
then `y_hat` has axis 2 moved to position 1 and the same criterion is
re-evaluated on each forecast-frame slice (these per-frame values are logged
only; the primary loss is what the step returns). -/
def conv_lstm_training_losses {α : Type}
    (criterion : Tensor α → Tensor α → Except TensorError α)
    (forecast_steps : ℕ) (y_hat y : Tensor α) :
    Except TensorError (α × List α) := do
  let loss ← criterion y_hat y
  let y_hat2 ← torch_moveaxis21 y_hat
  let frames ← (List.range forecast_steps).mapM fun f =>
    criterion (y_hat2.index_select1 f) (y.index_select1 f)
  return (loss, frames)

/-- Opaque tensor services used by the adversarial training orchestrator.  The
spec (§1, §5) treats the low-level tensor primitives as opaque external
collaborators of the orchestration logic, so for the loss-composition claims
`torch.cat` and `torch.mean` are arbitrary total functions over an abstract
tensor type `T`; their faithful shape/value semantics (`torch_cat`,
`torch_mean` above) are used where a claim is about those primitives
themselves. -/
structure TorchOps (T : Type) where
  cat : List T → ℕ → T
  mean : T → ℕ → T

/-- The adversarial model (nowcasting_gan.py).  Its sub-networks
(conditioning stacks, sampler, the two discriminators) and its loss modules
(`NowcastingLoss`, `GridCellLoss`, from the external/unavailable gan and losses
modules) are opaque functions over an abstract tensor type `T`; `latent_stack`
takes a draw index because each call samples fresh latent noise.
`grid_lambda` (default 20.0) and `num_samples` (default 6) are the
hyper-parameters of `__init__`. -/
structure NowcastingGAN (T : Type) (α : Type) where
  conditioning_stack : T → T
  latent_stack : ℕ → T
  sampler : T → T → T
  spatial_discriminator : T → T
  temporal_discriminator : T → T
  discriminator_loss : T → T → α
  grid_regularizer : T → T → α
  grid_lambda : α
  num_samples : ℕ

/-- `NowcastingGAN.forward` (nowcasting_gan.py lines 91-95): condition on the
context, draw a latent sample and run the sampler.  `draw` indexes the
stochastic latent draw of this call. -/
def NowcastingGAN.forward {T α : Type} (m : NowcastingGAN T α) (draw : ℕ) (x : T) : T :=
  m.sampler (m.conditioning_stack x) (m.latent_stack draw)

/-- `NowcastingGAN.training_step` (nowcasting_gan.py lines 97-165), returning
the scalar loss reported to the external optimizer.  `optimizer_idx = 0` is the
generator update, `optimizer_idx = 1` the discriminator update; any other index
falls through (Python returns `None`).  The unconditional `visualize_step` call
of the source is observational logging and contributes nothing to the returned
loss; the first generator-branch forward pass that feeds it is kept (it
consumes latent draw 0). -/
def NowcastingGAN.training_step {T α : Type} [Ring α] (ops : TorchOps T)
    (m : NowcastingGAN T α) (images future_images : T) (optimizer_idx : ℕ) :
    Option α :=
  if optimizer_idx = 0 then
    let _generated_images := m.forward 0 images
    let mean_prediction :=
      ops.mean (ops.cat ((List.range m.num_samples).map fun k => m.forward (k + 1) images) 0) 0
    let spatial_real := m.spatial_discriminator (ops.cat [images, future_images] 1)
    let spatial_fake := m.spatial_discriminator (ops.cat [images, mean_prediction] 1)
    let spatial_loss := m.discriminator_loss spatial_real spatial_fake
    let temporal_real := m.temporal_discriminator (ops.cat [images, future_images] 1)
    let temporal_fake := m.temporal_discriminator (ops.cat [images, mean_prediction] 1)
    let temporal_loss := m.discriminator_loss temporal_real temporal_fake
    let grid_loss := m.grid_regularizer mean_prediction future_images
    some (spatial_loss + temporal_loss - m.grid_lambda * grid_loss)
  else if optimizer_idx = 1 then
    let mean_prediction :=
      ops.mean (ops.cat ((List.range m.num_samples).map fun k => m.forward k images) 0) 0
    let spatial_real := m.spatial_discriminator (ops.cat [images, future_images] 1)
    let spatial_fake := m.spatial_discriminator (ops.cat [images, mean_prediction] 1)
    let spatial_loss := m.discriminator_loss spatial_real spatial_fake
    let temporal_real := m.temporal_discriminator (ops.cat [images, future_images] 1)
    let temporal_fake := m.temporal_discriminator (ops.cat [images, mean_prediction] 1)
    let temporal_loss := m.discriminator_loss temporal_real temporal_fake
    some (spatial_loss + temporal_loss)
  else none

/-- The mean-prediction computation of both training branches
(nowcasting_gan.py lines 109-112 and 139-142), with the faithful torch
semantics: `torch.mean(torch.cat(samples, dim=0), dim=0)` applied to the list
of stochastic forward passes. -/
def mean_prediction_calc {α : Type} [Field α] (samples : List (Tensor α)) :
    Except TensorError (Tensor α) := do
  let c ← torch_cat samples 0
  torch_mean c 0

/-- `NowcastingGAN.validation_step` (nowcasting_gan.py lines 167-199),
returning the pair `(g_loss, d_loss)` it reports.  Modelled from the spec for
the attributes involved: the single `discriminator`, `criterionGAN`,
`criterionL1` and `lambda_l1` referenced here are not created by the
constructor (the spec flags this inconsistency in §9), so they are supplied as
parameters.  Both the real and the fake batch are scored with target `True`,
exactly as in the source. -/
def NowcastingGAN.validation_step {T α : Type} [DivisionRing α] (ops : TorchOps T)
    (m : NowcastingGAN T α) (discriminator : T → T) (criterionGAN : T → Bool → α)
    (criterionL1 : T → T → α) (lambda_l1 : α) (images future_images : T) :
    α × α :=
  let generated_images := m.forward 0 images
  let fake := ops.cat [images, generated_images] 1
  let gan_loss := criterionGAN (discriminator fake) true
  let l1_loss := criterionL1 generated_images future_images * lambda_l1
  let g_loss := gan_loss + l1_loss
  let real := ops.cat [images, future_images] 1
  let real_loss := criterionGAN (discriminator real) true
  let fake_loss := criterionGAN (discriminator fake) true
  let d_loss := (real_loss + fake_loss) / 2
  (g_loss, d_loss)

/-- An Adam optimizer state as created by `torch.optim.Adam(..., lr, betas)`. -/
structure Adam where
  lr : ℚ
  betas : ℚ × ℚ
deriving DecidableEq, Repr

/-- The learning-rate schedulers selectable in
`NowcastingGAN.configure_optimizers`, with the parameters the source passes. -/
inductive Scheduler where
  | reduceLROnPlateau (mode : String) (factor threshold : ℚ) (patience : ℕ)
  | cosineAnnealingLR (T_max : ℕ) (eta_min : ℚ)
deriving DecidableEq, Repr

/-- The outcome of `configure_optimizers`: either the optimizer/scheduler lists
or, for an unrecognized policy, a normally returned `NotImplementedError`
VALUE — the source says `return NotImplementedError(...)`, not `raise`, so no
exception propagates. -/
inductive ConfigureResult where
  | schedules (opts : List Adam) (scheds : List Scheduler)
  | returned_value (msg : String)
deriving DecidableEq, Repr

/-- A trace of one `configure_optimizers` call: the Adam states constructed
during the call (lines 205-206 run before the policy check) and the returned
result. -/
structure ConfigureOutcome where
  created_optimizers : List Adam
  result : ConfigureResult
deriving DecidableEq, Repr

/-- `NowcastingGAN.configure_optimizers` (nowcasting_gan.py lines 201-220),
given values for the attributes it reads.  Note the attribute mismatches in the
source: it reads `self.b1`/`self.b2` while `__init__` stores `beta1`/`beta2`,
and `self.generator`/`self.discriminator`/`self.lr_method`/`self.lr_epochs`
are never assigned anywhere, so on an actual instance the very first line
raises `AttributeError` for every policy string; this embedding supplies those
values as parameters to expose the policy-branch behaviour. -/
def NowcastingGAN.configure_optimizers (b1 b2 gen_lr disc_lr : ℚ)
    (lr_method : String) (lr_epochs : ℕ) : ConfigureOutcome :=
  let opt_g : Adam := ⟨gen_lr, (b1, b2)⟩
  let opt_d : Adam := ⟨disc_lr, (b1, b2)⟩
  if lr_method = "plateau" then
    ⟨[opt_g, opt_d],
     .schedules [opt_g, opt_d]
       [.reduceLROnPlateau ("min") (1/5) (1/100) 10,
        .reduceLROnPlateau ("min") (1/5) (1/100) 10]⟩
  else if lr_method = "cosine" then
    ⟨[opt_g, opt_d],
     .schedules [opt_g, opt_d]
       [.cosineAnnealingLR lr_epochs 0, .cosineAnnealingLR lr_epochs 0]⟩
  else
    ⟨[opt_g, opt_d], .returned_value ("learning rate policy is not implemented")⟩

/-- A Python configuration value (only numbers and booleans occur in the
defaults of `from_config`). -/
inductive PyVal where
  | num (q : ℚ)
  | boolean (b : Bool)
deriving DecidableEq, Repr

/-- `config.get(key, default)` on a configuration mapping. -/
def config_get (config : String → Option PyVal) (key : String) (dflt : PyVal) : PyVal :=
  (config key).getD dflt

/-- The keyword parameters accepted by `NowcastingGAN.__init__`
(nowcasting_gan.py lines 21-38). -/
def NowcastingGAN.init_keyword_params : List String :=
  ["forecast_steps", "input_channels", "output_shape", "hidden_dim", "bilinear",
   "gen_lr", "disc_lr", "make_vis", "loss", "pretrained", "conv_type",
   "num_samples", "grid_lambda", "beta1", "beta2"]

/-- The keyword arguments `NowcastingGAN.from_config` (lines 80-89) passes to
the constructor, with the source's config keys and defaults. -/
def NowcastingGAN.from_config_kwargs (config : String → Option PyVal) :
    List (String × PyVal) :=
  [("forecast_steps", config_get config ("forecast_steps") (.num 12)),
   ("input_channels", config_get config ("in_channels") (.num 12)),
   ("hidden_dim", config_get config ("features") (.num 64)),
   ("num_layers", config_get config ("num_layers") (.num 5)),
   ("bilinear", config_get config ("bilinear") (.boolean false)),
   ("lr", config_get config ("lr") (.num (1/1000)))]

/-- Python call errors relevant here: a keyword argument not accepted by the
callee's signature raises `TypeError` before the function body runs. -/
inductive CallError where
  | unexpected_keyword_argument (name : String)
deriving DecidableEq, Repr

/-- Python keyword-call semantics: binding the keyword arguments against the
accepted parameter names, failing on the first unexpected keyword. -/
def python_kw_call (params : List String) (kwargs : List (String × PyVal)) :
    Except CallError (List (String × PyVal)) :=
  match kwargs.find? fun kv => !(params.contains kv.1) with
  | some kv => .error (.unexpected_keyword_argument kv.1)
  | none => .ok kwargs

/-- `NowcastingGAN.from_config` as a call into the constructor: build the
keyword arguments from the configuration and bind them against the
constructor's signature. -/
def NowcastingGAN.from_config (config : String → Option PyVal) :
    Except CallError (List (String × PyVal)) :=
  python_kw_call NowcastingGAN.init_keyword_params (NowcastingGAN.from_config_kwargs config)

/-- A shape-preserving cell over ℚ, for concrete instantiations. -/
def idCellQ : CellFn ℚ := fun _ s => (s.1, s.1)

/-- A shape-preserving cell over ℝ, for concrete instantiations. -/
def idCellR : CellFn ℝ := fun _ s => (s.1, s.1)

/-- A concrete recurrent encoder-decoder over ℚ (hidden_dim 4, one input and
output channel, two forecast steps, zero convolution parameters). -/
def convLSTMExampleQ : EncoderDecoderConvLSTM ℚ :=
  ⟨4, 1, 1, 2, 1, false, .F_mse_loss, idCellQ, idCellQ, idCellQ, idCellQ,
   fun _ _ _ _ _ => 0, fun _ => 0⟩

/-- A concrete recurrent encoder-decoder over ℝ, as `convLSTMExampleQ`. -/
def convLSTMExampleR : EncoderDecoderConvLSTM ℝ :=
  ⟨4, 1, 1, 2, 1, false, .F_mse_loss, idCellR, idCellR, idCellR, idCellR,
   fun _ _ _ _ _ => 0, fun _ => 0⟩

/-- A concrete all-zero 5-D input of shape `[1, 1, 1, 1, 1]` over ℚ. -/
def xQ : Tensor ℚ := ⟨[1, 1, 1, 1, 1], fun _ => 0⟩

/-- A concrete all-zero 5-D input of shape `[1, 1, 1, 1, 1]` over ℝ. -/
def xR : Tensor ℝ := ⟨[1, 1, 1, 1, 1], fun _ => 0⟩

/-- A concrete prediction in the layout `forward` produces,
`[batch, channel, time, height, width] = [1, 1, 2, 1, 1]`, with frame values
1/4 and 3/4. -/
def yhatC9 : Tensor ℚ :=
  ⟨[1, 1, 2, 1, 1], fun idx => if idx.getD 2 0 = 0 then 1/4 else 3/4⟩

/-- A concrete target in the data-loader layout
`[batch, time, channel, height, width] = [1, 2, 1, 1, 1]` (spec §3), with frame
values 0 and 1. -/
def yC9 : Tensor ℚ :=
  ⟨[1, 2, 1, 1, 1], fun idx => if idx.getD 1 0 = 0 then 0 else 1⟩

/-- A concrete stochastic generator sample of shape `[2, 1, 1, 1, 1]`
(batch 2): value 0 on batch element 0 and 2 on batch element 1. -/
def ganSample1 : Tensor ℚ :=
  ⟨[2, 1, 1, 1, 1], fun idx => if idx.getD 0 0 = 0 then 0 else 2⟩

/-- A second generator sample of shape `[2, 1, 1, 1, 1]`: value 1 on batch
element 0 and 3 on batch element 1. -/
def ganSample2 : Tensor ℚ :=
  ⟨[2, 1, 1, 1, 1], fun idx => if idx.getD 0 0 = 0 then 1 else 3⟩

/-- Trivial opaque tensor services over scalar tensors. -/
def qOps : TorchOps ℚ := ⟨fun _ _ => 0, fun _ _ => 0⟩

/-- A stubbed adversarial model over scalar tensors: the spatial path scores
through `discriminator_loss` to 2, the temporal path to 3, the grid regularizer
returns 1/10, and `grid_lambda` is the default 20. -/
def ganStub : NowcastingGAN ℚ ℚ :=
  ⟨fun x => x, fun _ => 0, fun a _ => a, fun _ => 0, fun _ => 1,
   fun a _ => if a = 0 then 2 else 3, fun _ _ => 1/10, 20, 6⟩

theorem except_bind_ok {ε σ β : Type} (a : σ) (f : σ → Except ε β) :
    (Except.ok a).bind f = f a := rfl

theorem except_bind_error {ε σ β : Type} (e : ε) (f : σ → Except ε β) :
    (Except.error e : Except ε σ).bind f = .error e := rfl

theorem except_map_ok {ε σ β : Type} (a : σ) (f : σ → β) :
    (Except.ok a : Except ε σ).map f = .ok (f a) := rfl

/-- The real sigmoid lands strictly inside the open unit interval. -/
theorem sigmoid_mem_Ioo (x : ℝ) : sigmoid x ∈ Set.Ioo (0 : ℝ) 1 := by
  have hpos : 0 < 1 + Real.exp (-x) := by positivity
  unfold sigmoid
  constructor
  · exact div_pos one_pos hpos
  · rw [div_lt_one hpos]
    have := Real.exp_pos (-x)
    linarith

/-- Shape invariant of the decoding recurrence: under the cells' state-shape
contract, the decoder states keep their shapes and every collected output has
the shape of the initial `h_t4`. -/
theorem decoder_fold_invariant {α : Type} (d1 d2 : CellFn α)
    (hd1 : StatePreserving d1) (hd2 : StatePreserving d2) :
    ∀ (n : ℕ) (ev h3 c3 h4 c4 : Tensor α) (outs : List (Tensor α)),
      ((List.range n).foldl (fun s _ => decoderStep d1 d2 s) ⟨ev, h3, c3, h4, c4, outs⟩).h_t3.shape = h3.shape
      ∧ ((List.range n).foldl (fun s _ => decoderStep d1 d2 s) ⟨ev, h3, c3, h4, c4, outs⟩).h_t4.shape = h4.shape
      ∧ ((List.range n).foldl (fun s _ => decoderStep d1 d2 s) ⟨ev, h3, c3, h4, c4, outs⟩).outputs.length = outs.length + n
      ∧ ∀ u ∈ ((List.range n).foldl (fun s _ => decoderStep d1 d2 s) ⟨ev, h3, c3, h4, c4, outs⟩).outputs,
          u ∈ outs ∨ u.shape = h4.shape := by
  intro n
  induction n with
  | zero =>
    intro ev h3 c3 h4 c4 outs
    refine ⟨rfl, rfl, rfl, ?_⟩
    intro u hu
    exact Or.inl hu
  | succ n ih =>
    intro ev h3 c3 h4 c4 outs
    obtain ⟨i3, i4, ilen, imem⟩ := ih ev h3 c3 h4 c4 outs
    rw [List.range_succ, List.foldl_append, List.foldl_cons, List.foldl_nil]
    set R := (List.range n).foldl (fun s _ => decoderStep d1 d2 s) ⟨ev, h3, c3, h4, c4, outs⟩ with hR
    have s3 : (decoderStep d1 d2 R).h_t3.shape = R.h_t3.shape :=
      (hd1 R.encoder_vector (R.h_t3, R.c_t3)).1
    have s4 : (decoderStep d1 d2 R).h_t4.shape = R.h_t4.shape :=
      (hd2 (d1 R.encoder_vector (R.h_t3, R.c_t3)).1 (R.h_t4, R.c_t4)).1
    refine ⟨s3.trans i3, s4.trans i4, ?_, ?_⟩
    · show (R.outputs ++ [_]).length = outs.length + (n + 1)
      rw [List.length_append, ilen, List.length_singleton]
      omega
    · intro u hu
      rcases List.mem_append.mp hu with h | h
      · exact imem u h
      · right
        rw [List.mem_singleton.mp h]
        exact s4.trans i4

/-- `torch.stack(·, 1)` succeeds on a non-empty list of same-shaped tensors
and inserts the list length at position 1 of the shape. -/
theorem torch_stack1_ok {α : Type} (ts : List (Tensor α)) (s0 : ℕ) (srest : List ℕ)
    (hne : ts ≠ []) (hall : ∀ u ∈ ts, u.shape = s0 :: srest) :
    ∃ st, torch_stack1 ts = Except.ok st ∧ st.shape = s0 :: ts.length :: srest := by
  match ts, hne with
  | t :: rest, _ =>
    have ht : t.shape = s0 :: srest := hall t (List.mem_cons_self t rest)
    have hc : ∀ u ∈ t :: rest, u.shape = t.shape := by
      intro u hu
      rw [hall u hu, ht]
    simp only [torch_stack1]
    rw [if_pos hc, ht]
    exact ⟨_, rfl, rfl⟩

/-- `.permute(0, 2, 1, 3, 4)` succeeds on a 5-D tensor and swaps dimensions 1
and 2. -/
theorem permute02134_ok {α : Type} (t : Tensor α) (a b c d e : ℕ)
    (ht : t.shape = [a, b, c, d, e]) :
    ∃ p, t.permute02134 = Except.ok p ∧ p.shape = [a, c, b, d, e] := by
  simp only [Tensor.permute02134, ht]
  exact ⟨_, rfl, rfl⟩

/-- The model's `decoder_CNN` succeeds on a 5-D input whose channel dimension
equals `hidden_dim` and with at least one output position, collapsing the
channel dimension to `out_channels`. -/
theorem decoder_CNN_ok {α : Type} [Ring α] (m : EncoderDecoderConvLSTM α) (X : Tensor α)
    (bb d hh ww : ℕ) (hX : X.shape = [bb, m.hidden_dim, d, hh, ww])
    (hd : 1 ≤ d) (hhh : 1 ≤ hh) (hww : 1 ≤ ww) :
    ∃ cvt, m.decoder_CNN X = Except.ok cvt ∧ cvt.shape = [bb, m.out_channels, d, hh, ww] := by
  simp only [EncoderDecoderConvLSTM.decoder_CNN, hX]
  rw [if_pos ⟨trivial, hd, hhh, hww⟩]
  exact ⟨_, rfl, rfl⟩

/-- Under the decoder cells' shape contract, `autoencoder` with a positive
horizon succeeds, has the contracted output shape and every output value is
`σ` of some pre-activation. -/
theorem autoencoder_ok {α : Type} [Ring α] (σ : α → α) (m : EncoderDecoderConvLSTM α)
    (x : Tensor α) (seq_len n : ℕ) (h_t c_t h_t2 c_t2 h_t3 c_t3 h_t4 c_t4 : Tensor α)
    (b h w : ℕ)
    (_h3 : h_t3.shape = [b, m.hidden_dim, h, w]) (h4 : h_t4.shape = [b, m.hidden_dim, h, w])
    (hn : 1 ≤ n) (hhh : 1 ≤ h) (hww : 1 ≤ w)
    (hd1 : StatePreserving m.decoder_1_convlstm) (hd2 : StatePreserving m.decoder_2_convlstm) :
    ∃ out, m.autoencoder σ x seq_len n h_t c_t h_t2 c_t2 h_t3 c_t3 h_t4 c_t4 = Except.ok out
      ∧ out.shape = [b, m.out_channels, n, h, w]
      ∧ ∀ idx, ∃ v, out.data idx = σ v := by
  obtain ⟨i3, i4, ilen, imem⟩ :=
    decoder_fold_invariant m.decoder_1_convlstm m.decoder_2_convlstm hd1 hd2 n
      ((encoderLoop m x seq_len h_t c_t h_t2 c_t2).2.2.1) h_t3 c_t3 h_t4 c_t4 []
  simp only [EncoderDecoderConvLSTM.autoencoder]
  set D := (List.range n).foldl
      (fun s _ => decoderStep m.decoder_1_convlstm m.decoder_2_convlstm s)
      ⟨(encoderLoop m x seq_len h_t c_t h_t2 c_t2).2.2.1, h_t3, c_t3, h_t4, c_t4, []⟩ with hD
  have hlen : D.outputs.length = n := by
    rw [ilen]
    simp
  have hne : D.outputs ≠ [] := by
    intro hcontra
    rw [hcontra] at hlen
    simp at hlen
    omega
  have hall : ∀ u ∈ D.outputs, u.shape = b :: [m.hidden_dim, h, w] := by
    intro u hu
    rcases imem u hu with h | h
    · simp at h
    · rw [h, h4]
  obtain ⟨stk, hstk, hstks⟩ := torch_stack1_ok D.outputs b [m.hidden_dim, h, w] hne hall
  rw [hlen] at hstks
  obtain ⟨pm, hpm, hpms⟩ := permute02134_ok stk b n m.hidden_dim h w hstks
  obtain ⟨cvt, hcvt, hcvts⟩ := decoder_CNN_ok m pm b n h w hpms hn hhh hww
  rw [hstk, except_bind_ok, hpm, except_bind_ok, hcvt, except_map_ok]
  refine ⟨_, rfl, ?_, ?_⟩
  · show (Tensor.map σ cvt).shape = _
    rw [Tensor.map, hcvts]
  · intro idx
    exact ⟨cvt.data idx, rfl⟩

/-- C1: In the adversarial model's training step with optimizer index 0 (the
generator update), for every spatial loss `s`, temporal loss `t`, grid loss
`g` (stubbed as deterministic outputs of the discriminator-loss and
grid-regularizer collaborators) and every weight `grid_lambda`, the reported
generator loss equals `s + t - grid_lambda * g` — the grid term is
subtracted. -/
theorem nowcasting_gan_generator_loss_composition {T α : Type} [Ring α]
    (ops : TorchOps T) (m : NowcastingGAN T α) (images future_images : T) (s t g : α)
    (hs : ∀ a b, m.discriminator_loss (m.spatial_discriminator a) (m.spatial_discriminator b) = s)
    (ht : ∀ a b, m.discriminator_loss (m.temporal_discriminator a) (m.temporal_discriminator b) = t)
    (hg : ∀ a b, m.grid_regularizer a b = g) :
    NowcastingGAN.training_step ops m images future_images 0 =
      some (s + t - m.grid_lambda * g) := by
  simp [NowcastingGAN.training_step, hs, ht, hg]

/-- Witness for C1 at the spec's stub values: spatial 2, temporal 3, grid 1/10,
grid_lambda 20 give a reported generator loss of exactly 3. -/
theorem nowcasting_gan_generator_loss_composition_check :
    NowcastingGAN.training_step qOps ganStub 0 0 0 = some 3 := by
  have h1 : ∀ a b : ℚ, ganStub.discriminator_loss (ganStub.spatial_discriminator a)
      (ganStub.spatial_discriminator b) = 2 := by
    intro a b
    simp [ganStub]
  have h2 : ∀ a b : ℚ, ganStub.discriminator_loss (ganStub.temporal_discriminator a)
      (ganStub.temporal_discriminator b) = 3 := by
    intro a b
    simp [ganStub]
  have h3 : ∀ a b : ℚ, ganStub.grid_regularizer a b = 1/10 := by
    intro a b
    simp [ganStub]
  have h := nowcasting_gan_generator_loss_composition qOps ganStub 0 0 2 3 (1/10) h1 h2 h3
  rw [h]
  norm_num [ganStub]

/-- C2: In the adversarial model's training step with optimizer index 1 (the
discriminator update), for every spatial loss `s` and temporal loss `t`, the
reported discriminator loss equals `s + t`, with no grid-regularization term
(the equation holds for every grid regularizer and every `grid_lambda` of the
model). -/
theorem nowcasting_gan_discriminator_loss_composition {T α : Type} [Ring α]
    (ops : TorchOps T) (m : NowcastingGAN T α) (images future_images : T) (s t : α)
    (hs : ∀ a b, m.discriminator_loss (m.spatial_discriminator a) (m.spatial_discriminator b) = s)
    (ht : ∀ a b, m.discriminator_loss (m.temporal_discriminator a) (m.temporal_discriminator b) = t) :
    NowcastingGAN.training_step ops m images future_images 1 = some (s + t) := by
  simp [NowcastingGAN.training_step, hs, ht]

/-- Witness for C2 at the spec's stub values: spatial 2 and temporal 3 give a
reported discriminator loss of exactly 5. -/
theorem nowcasting_gan_discriminator_loss_composition_check :
    NowcastingGAN.training_step qOps ganStub 0 0 1 = some 5 := by
  have h1 : ∀ a b : ℚ, ganStub.discriminator_loss (ganStub.spatial_discriminator a)
      (ganStub.spatial_discriminator b) = 2 := by
    intro a b
    simp [ganStub]
  have h2 : ∀ a b : ℚ, ganStub.discriminator_loss (ganStub.temporal_discriminator a)
      (ganStub.temporal_discriminator b) = 3 := by
    intro a b
    simp [ganStub]
  have h := nowcasting_gan_discriminator_loss_composition qOps ganStub 0 0 2 3 h1 h2
  rw [h]
  norm_num

/-- C3: For every 5-D input `[b, T_in, c, h, w]` with positive spatial extents
and every forecast horizon `T_out ≥ 1`, the recurrent encoder-decoder's
forward pass (with the real sigmoid head) returns a tensor of shape exactly
`[b, out_channels, T_out, h, w]` whose every value lies strictly in the open
interval (0, 1). -/
theorem conv_lstm_forward_shape_and_range
    (m : EncoderDecoderConvLSTM ℝ) (x : Tensor ℝ) (b Tin c h w Tout : ℕ)
    (hx : x.shape = [b, Tin, c, h, w]) (hh : 1 ≤ h) (hw : 1 ≤ w) (hT : 1 ≤ Tout)
    (hd1 : StatePreserving m.decoder_1_convlstm)
    (hd2 : StatePreserving m.decoder_2_convlstm) :
    ∃ out, EncoderDecoderConvLSTM.forward sigmoid m x Tout = Except.ok out
      ∧ out.shape = [b, m.out_channels, Tout, h, w]
      ∧ ∀ idx, out.data idx ∈ Set.Ioo (0 : ℝ) 1 := by
  obtain ⟨out, hout, hshape, hval⟩ :=
    autoencoder_ok sigmoid m x Tin Tout
      (init_hidden (α := ℝ) b m.hidden_dim h w).1 (init_hidden (α := ℝ) b m.hidden_dim h w).2
      (init_hidden (α := ℝ) b m.hidden_dim h w).1 (init_hidden (α := ℝ) b m.hidden_dim h w).2
      (init_hidden (α := ℝ) b m.hidden_dim h w).1 (init_hidden (α := ℝ) b m.hidden_dim h w).2
      (init_hidden (α := ℝ) b m.hidden_dim h w).1 (init_hidden (α := ℝ) b m.hidden_dim h w).2
      b h w rfl rfl hT hh hw hd1 hd2
  refine ⟨out, ?_, hshape, fun idx => ?_⟩
  · simp only [EncoderDecoderConvLSTM.forward, hx]
    exact hout
  · obtain ⟨v, hv⟩ := hval idx
    rw [hv]
    exact sigmoid_mem_Ioo v

/-- Witness for C3 on a concrete model and an all-zero `[1, 1, 1, 1, 1]`
input with horizon 1. -/
theorem conv_lstm_forward_shape_and_range_check :
    ∃ out, EncoderDecoderConvLSTM.forward sigmoid convLSTMExampleR xR 1 = Except.ok out
      ∧ out.shape = [1, convLSTMExampleR.out_channels, 1, 1, 1]
      ∧ ∀ idx, out.data idx ∈ Set.Ioo (0 : ℝ) 1 :=
  conv_lstm_forward_shape_and_range convLSTMExampleR xR 1 1 1 1 1 1 rfl (le_refl 1)
    (le_refl 1) (le_refl 1) (fun _ _ => ⟨rfl, rfl⟩) (fun _ _ => ⟨rfl, rfl⟩)

/-- C4 (code-bug evaluation): requesting the adversarial model's optimizer
configuration with the unrecognized policy string `step` (given values for the
attributes the method reads) constructs BOTH Adam optimizer states and then
returns — does not raise — a `NotImplementedError` value, contradicting the
claim that an `UnsupportedConfiguration` exception is raised before any
optimizer state is created. -/
theorem nowcasting_gan_lr_policy_error_returned :
    NowcastingGAN.configure_optimizers 0 (999/1000) (1/20000) (1/5000) ("step") 10 =
      ⟨[⟨1/20000, (0, 999/1000)⟩, ⟨1/5000, (0, 999/1000)⟩],
       .returned_value ("learning rate policy is not implemented")⟩ := by
  rfl

/-- C5 (code-bug evaluation): with two stochastic samples of batch size 2, the
mean-prediction computation `torch.mean(torch.cat(samples, dim=0), dim=0)`
yields a 4-D tensor of shape `[1, 1, 1, 1]` whose single value 3/2 averages
across the batch as well, instead of a 5-D batch-preserving tensor whose batch
element 0 would be the per-element sample average 1/2. -/
theorem nowcasting_gan_mean_prediction_collapses_batch :
    (mean_prediction_calc [ganSample1, ganSample2]).map
        (fun t => (t.shape, t.data [0, 0, 0, 0])) =
      Except.ok ([1, 1, 1, 1], (3 : ℚ)/2)
    ∧ ganSample1.shape = [2, 1, 1, 1, 1]
    ∧ (3 : ℚ)/2 ≠ (ganSample1.data [0, 0, 0, 0, 0] + ganSample2.data [0, 0, 0, 0, 0]) / 2 := by
  refine ⟨?_, rfl, ?_⟩
  · have hr : List.range 4 = [0, 1, 2, 3] := rfl
    simp +decide [mean_prediction_calc, torch_cat, torch_mean, catLookup,
      ganSample1, ganSample2, Bind.bind, Except.bind, Except.map, List.insertIdx, hr]
    norm_num
  · simp [ganSample1, ganSample2]
    norm_num

/-- C6: For a requested forecast horizon of 0, the recurrent encoder-decoder's
forward pass on any 5-D input fails with `InvalidArgument` (the empty
`torch.stack` raises) rather than returning a malformed empty tensor. -/
theorem conv_lstm_forward_zero_horizon {α : Type} [Ring α] (σ : α → α)
    (m : EncoderDecoderConvLSTM α) (x : Tensor α) (b Tin c h w : ℕ)
    (hx : x.shape = [b, Tin, c, h, w]) :
    EncoderDecoderConvLSTM.forward σ m x 0 = Except.error TensorError.invalidArgument := by
  simp [EncoderDecoderConvLSTM.forward, hx, EncoderDecoderConvLSTM.autoencoder,
    torch_stack1, except_bind_error]

/-- Witness for C6 on a concrete model and input. -/
theorem conv_lstm_forward_zero_horizon_check :
    EncoderDecoderConvLSTM.forward (fun q => q) convLSTMExampleQ xQ 0 =
      Except.error TensorError.invalidArgument :=
  conv_lstm_forward_zero_horizon (fun q => q) convLSTMExampleQ xQ 1 1 1 1 1 rfl

/-- C7: The adversarial model's validation step generates one forecast (one
generator pass, latent draw 0) and reports a generator loss equal to
`gan_loss + lambda_l1 * l1_loss` together with a discriminator loss equal to
`(real_loss + fake_loss) / 2`, scoring both the real and the fake batch
through the single `discriminator` (supplied, with `criterionGAN`,
`criterionL1` and `lambda_l1`, as parameters because the constructor never
defines them). -/
theorem nowcasting_gan_validation_losses {T α : Type} [Field α] (ops : TorchOps T)
    (m : NowcastingGAN T α) (discriminator : T → T) (criterionGAN : T → Bool → α)
    (criterionL1 : T → T → α) (lambda_l1 : α) (images future_images : T) :
    NowcastingGAN.validation_step ops m discriminator criterionGAN criterionL1
        lambda_l1 images future_images =
      (criterionGAN (discriminator (ops.cat [images, m.forward 0 images] 1)) true
         + lambda_l1 * criterionL1 (m.forward 0 images) future_images,
       (criterionGAN (discriminator (ops.cat [images, future_images] 1)) true
         + criterionGAN (discriminator (ops.cat [images, m.forward 0 images] 1)) true) / 2) := by
  simp only [NowcastingGAN.validation_step, Prod.mk.injEq]
  refine ⟨by ring, ?_⟩
  trivial

/-- C8: Constructing the recurrent encoder-decoder with a loss string outside
the recognized set fails at construction time with `UnsupportedConfiguration`
(so no model exists to fail mid-training), while a supplied loss callable is
accepted verbatim without validation. -/
theorem conv_lstm_loss_resolution {α : Type}
    (hidden_dim input_channels out_channels forecast_steps : ℕ)
    (lr : ℚ) (make_vis pretrained : Bool) (e1 e2 d1 d2 : CellFn α)
    (weight : ℕ → ℕ → ℕ → ℕ → ℕ → α) (bias : ℕ → α) (s : String)
    (hs : s ∉ recognized_losses) :
    EncoderDecoderConvLSTM.init hidden_dim input_channels out_channels forecast_steps
        lr make_vis (LossArg.str s) pretrained e1 e2 d1 d2 weight bias =
      Except.error ConfigError.unsupportedConfiguration
    ∧ ∀ f : Tensor α → Tensor α → α,
        ∃ mdl, EncoderDecoderConvLSTM.init hidden_dim input_channels out_channels
            forecast_steps lr make_vis (LossArg.module f) pretrained e1 e2 d1 d2 weight bias =
          Except.ok mdl ∧ mdl.criterion = Criterion.module f := by
  constructor
  · simp [EncoderDecoderConvLSTM.init, resolve_loss, hs]
  · intro f
    exact ⟨_, rfl, rfl⟩

/-- Witness for C8: the unrecognized identifier `l2` is rejected at
construction and a concrete callable is stored verbatim. -/
theorem conv_lstm_loss_resolution_check :
    EncoderDecoderConvLSTM.init (α := ℚ) 64 12 1 48 (1/1000) false (LossArg.str ("l2"))
        false idCellQ idCellQ idCellQ idCellQ (fun _ _ _ _ _ => 0) (fun _ => 0) =
      Except.error ConfigError.unsupportedConfiguration
    ∧ ∃ mdl, EncoderDecoderConvLSTM.init (α := ℚ) 64 12 1 48 (1/1000) false
          (LossArg.module fun _ _ => 0) false idCellQ idCellQ idCellQ idCellQ
          (fun _ _ _ _ _ => 0) (fun _ => 0) =
        Except.ok mdl ∧ mdl.criterion = Criterion.module (fun _ _ => 0) := by
  have h := conv_lstm_loss_resolution (α := ℚ) 64 12 1 48 (1/1000) false false
    idCellQ idCellQ idCellQ idCellQ (fun _ _ _ _ _ => 0) (fun _ => 0) ("l2") (by decide)
  exact ⟨h.1, h.2 (fun _ _ => 0)⟩

/-- C9 (code-bug evaluation): on a prediction of shape `[1, 1, 2, 1, 1]` (the
layout `forward` produces) with frame values 1/4 and 3/4 and a target of shape
`[1, 2, 1, 1, 1]` (the data-loader layout) with frame values 0 and 1, the
primary mse loss — computed before the axis move, hence broadcast across the
mismatched channel/time axes — is 5/16, while the per-frame losses are 1/16
each, so their mean 1/16 does not reconcile with the composite; after aligning
the axes the same mse equals 1/16 and does reconcile. -/
theorem conv_lstm_frame_loss_reconciliation_fails :
    conv_lstm_training_losses mse_loss 2 yhatC9 yC9 =
      Except.ok ((5 : ℚ)/16, [(1 : ℚ)/16, (1 : ℚ)/16])
    ∧ ((5 : ℚ)/16 ≠ ((1 : ℚ)/16 + (1 : ℚ)/16) / 2)
    ∧ (torch_moveaxis21 yhatC9).bind (fun t2 => mse_loss t2 yC9) = Except.ok ((1 : ℚ)/16) := by
  have hr1 : List.range 1 = [0] := rfl
  have hr2 : List.range 2 = [0, 1] := rfl
  refine ⟨?_, by norm_num, ?_⟩
  · simp +decide [conv_lstm_training_losses, mse_loss, broadcastShapes, broadcastDim,
      bcIndex, allIndices, torch_moveaxis21, Tensor.index_select1, yhatC9, yC9,
      Bind.bind, Except.bind, List.mapM, List.mapM.loop, Option.bind, hr1, hr2,
      Function.comp, pure, Except.pure]
    norm_num
  · have hb : broadcastShapes [1, 2, 1, 1, 1] [1, 2, 1, 1, 1] = some [1, 2, 1, 1, 1] := rfl
    have ha : allIndices [1, 2, 1, 1, 1] = [[0, 0, 0, 0, 0], [0, 1, 0, 0, 0]] := rfl
    simp +decide [mse_loss, bcIndex, torch_moveaxis21, yhatC9, yC9,
      Bind.bind, Except.bind, hb, ha]
    norm_num

/-- C10: For every configuration mapping, the adversarial model's
`from_config` fails with an unexpected-keyword-argument error (Python's
`TypeError`) instead of constructing a model, because it forwards the keywords
`num_layers` and `lr` that `__init__` does not accept. -/
theorem nowcasting_gan_from_config_bad_kwargs :
    ("num_layers") ∉ NowcastingGAN.init_keyword_params
    ∧ ("lr") ∉ NowcastingGAN.init_keyword_params
    ∧ ∀ config, NowcastingGAN.from_config config =
        Except.error (CallError.unexpected_keyword_argument ("num_layers")) := by
  refine ⟨by decide, by decide, fun config => rfl⟩

end Satflow


